import Mathlib

/-!
Shallow embedding of the @japa/assert core: the assertion ledger
(plan / increment / validate, with stack-trace attribution of mismatch
errors), the subset matcher used by `containsSubset` / `notContainsSubset`,
the OpenAPI schema gate, and the test-runner completion hook.

Sources embedded:
  * `src/unnamed/part_002` — the `Assert` class: `assertions` (ledger state
    and `validate`), `incrementAssertionsCount`, `plan`, the assertion
    predicates, `registerApiSpecs`, `isValidApiResponse`.
  * `src/index.ts` / `src/unnamed/part_000` — the plugin's test-completion
    hook.
  * the `subsetCompare` utility is imported by `part_002` from a utils
    module whose source is not in the provided files; it is modelled from
    the specification (§4.2) below.
-/

namespace JapaAssert

/-- A JavaScript JSON-like value: primitives, arrays and plain objects.
Objects are finite lists of own (string) keys with values; JS object keys
are unique, and lookup takes the first binding. -/
inductive JsVal where
  | str (s : String)
  | num (n : Int)
  | bool (b : Bool)
  | null
  | undef
  | arr (elems : List JsVal)
  | obj (fields : List (String × JsVal))

/-- A JavaScript `Error` object as the ledger observes it: a mutable
`message` and the stack captured when the object was created.  The stack
is abstracted to a tag identifying the creation (capture) site. -/
structure ErrorObj where
  message : String
  stack : Nat
deriving DecidableEq

/-- The `assertions` tracking object of the `Assert` class
(`src/unnamed/part_002`, lines 50-70): `planned?: number`,
`total: number`, `mismatchError: null | Error`. -/
structure Assertions where
  planned : Option Nat := none
  total : Nat := 0
  mismatchError : Option ErrorObj := none
deriving DecidableEq

/-- A freshly constructed `Assert` instance's ledger:
`{ total: 0, mismatchError: null }`, `planned` absent. -/
def Assert.new : Assertions := {}

/-- The message built by `validate` on a plan mismatch
(`src/unnamed/part_002`, lines 64-65): the plural suffix depends only on
`planned === 1`, never on the ran count. -/
def mismatchMessage (planned total : Nat) : String :=
  "Planned for " ++ toString planned ++ " assertion" ++
    (if planned = 1 then "" else "s") ++ ", but ran " ++ toString total

/-- What a call to `validate()` does: return normally, throw the (mutated)
stored mismatch error, or — were the stored error `null` while `planned`
is set, which no reachable state exhibits — fail with a TypeError when
assigning `null.message`. -/
inductive ValidateOutcome where
  | ok
  | threw (e : ErrorObj)
  | typeError
deriving DecidableEq

/-- `assertions.validate()` (`src/unnamed/part_002`, lines 58-69): no-op
when `planned` is `undefined`; no-op when `planned === total`; otherwise
set `mismatchError.message` to the mismatch message and throw that same
error object.  Returns the outcome together with the post-state. -/
def validate (a : Assertions) : ValidateOutcome × Assertions :=
  match a.planned with
  | none => (.ok, a)
  | some p =>
    if p = a.total then (.ok, a)
    else
      match a.mismatchError with
      | none => (.typeError, a)
      | some e =>
        let e2 : ErrorObj := { e with message := mismatchMessage p a.total }
        (.threw e2, { a with mismatchError := some e2 })

/-- `incrementAssertionsCount` (`src/unnamed/part_002`, lines 88-90):
`this.assertions.total += 1`. -/
def incrementAssertionsCount (a : Assertions) : Assertions :=
  { a with total := a.total + 1 }

/-- `plan(assertionsToExpect)` (`src/unnamed/part_002`, lines 95-104):
creates a fresh `Error` (empty message) capturing the stack at the call
site — abstracted as the tag `site` — then stores the planned count and
the error, overwriting whatever was there. -/
def plan (a : Assertions) (assertionsToExpect : Nat) (site : Nat) : Assertions :=
  { a with
    planned := some assertionsToExpect
    mismatchError := some { message := "", stack := site } }

/-- The ledger states reachable from a fresh `Assert` instance by the
operations that touch the ledger: `incrementAssertionsCount` (called by
every delegating predicate), `plan`, and `validate`. -/
inductive Reachable : Assertions → Prop where
  | init : Reachable Assert.new
  | increment {a} : Reachable a → Reachable (incrementAssertionsCount a)
  | plan {a} (n site : Nat) : Reachable a → Reachable (plan a n site)
  | validate {a} : Reachable a → Reachable (validate a).2

/-! ### The OpenAPI schema gate -/

/-- `Assert.registerApiSpecs` (`src/unnamed/part_002`, lines 35-45) as it
acts on the process-wide static flag `hasInstalledApiValidator`: the call
sets it to `true` (schema loading itself is delegated to the external
validator library). -/
def registerApiSpecs (_hasInstalledApiValidator : Bool) : Bool := true

/-- The error message thrown by `isValidApiResponse` when no schemas were
registered (`src/unnamed/part_002`, line 2172). -/
def notConfiguredMessage : String :=
  "Cannot validate responses without defining api schemas"

/-- `isValidApiResponse(response)` (`src/unnamed/part_002`, lines
2169-2175): if the static flag is unset, throw the not-configured error;
otherwise delegate entirely to the external schema matcher.  Either way
the ledger is untouched (the method never calls
`incrementAssertionsCount`).  Result: the ledger after the call, and the
error this method itself throws (`none` when it delegates). -/
def isValidApiResponse (hasInstalledApiValidator : Bool) (a : Assertions) :
    Assertions × Option String :=
  if !hasInstalledApiValidator then (a, some notConfiguredMessage)
  else (a, none)

/-- An operation of the `Assert` class as seen by the static flag
`hasInstalledApiValidator`: `registerApiSpecs` writes it (line 39 of
`src/unnamed/part_002`); no other operation in the class assigns it. -/
inductive GateOp where
  | register
  | otherOp

/-- Effect of one operation on the static flag. -/
def applyGateOp (flag : Bool) : GateOp → Bool
  | .register => true
  | .otherOp => flag

/-- Effect of a sequence of operations on the static flag. -/
def runGateOps (flag : Bool) (ops : List GateOp) : Bool :=
  ops.foldl applyGateOp flag

/-! ### The plugin's test-completion hook -/

/-- The completion hook registered by the plugin (`src/index.ts`, lines
29-37; `src/unnamed/part_000`, lines 33-40): when the finished test has no
recorded error, call `assertions.validate()` on the test's ledger;
otherwise do nothing (and so raise nothing). -/
def completionHook (hasError : Bool) (a : Assertions) :
    ValidateOutcome × Assertions :=
  if !hasError then validate a else (.ok, a)

/-! ### The subset matcher

`containsSubset` / `notContainsSubset` both evaluate the single function
`subsetCompare(needle, haystack)` imported from the utils module.  That
module's source is not among the provided files, so the function is
modelled from the specification. -/

mutual

/-- Modelled from the spec: `subsetCompare(expected, actual)`, the
recursive subset comparison implemented in the repository's utils module
(not present in the provided sources).  Per §4.2: a primitive expected
value is compared by strict equality; an expected array requires an
actual array each of whose expected elements matches some actual element
(unordered); an expected plain object requires an actual object carrying
every own key of the expected object with a recursively matching value,
extra actual keys ignored; any type mismatch is a non-match. -/
def subsetCompare : JsVal → JsVal → Bool
  | .arr es, .arr as => arrSubset es as
  | .arr _, _ => false
  | .obj kvs, .obj akvs => objSubset kvs akvs
  | .obj _, _ => false
  | .str s, .str t => s = t
  | .num x, .num y => x = y
  | .bool b, .bool c => b = c
  | .null, .null => true
  | .undef, .undef => true
  | _, _ => false
termination_by e a => sizeOf e + sizeOf a

/-- Every expected element is matched by some actual element. -/
def arrSubset : List JsVal → List JsVal → Bool
  | [], _ => true
  | e :: es, as => memMatch e as && arrSubset es as
termination_by es as => sizeOf es + sizeOf as

/-- Some element of the actual array matches the expected value. -/
def memMatch : JsVal → List JsVal → Bool
  | _, [] => false
  | e, x :: as => subsetCompare e x || memMatch e as
termination_by e as => sizeOf e + sizeOf as

/-- Every expected key/value pair is carried, matching, by the actual
object's fields. -/
def objSubset : List (String × JsVal) → List (String × JsVal) → Bool
  | [], _ => true
  | (k, v) :: rest, akvs => keyMatch k v akvs && objSubset rest akvs
termination_by kvs akvs => sizeOf kvs + sizeOf akvs

/-- The actual object's fields carry key `k` (first binding) with a value
matching `v`. -/
def keyMatch : String → JsVal → List (String × JsVal) → Bool
  | _, _, [] => false
  | k, v, (k2, v2) :: rest => if k = k2 then subsetCompare v v2 else keyMatch k v rest
termination_by _k v akvs => sizeOf v + sizeOf akvs

end

/-- First binding of key `k` among a JS object's own fields. -/
def objLookup (k : String) : List (String × JsVal) → Option JsVal
  | [] => none
  | (k2, v2) :: rest => if k = k2 then some v2 else objLookup k rest

/-! ### Assertion predicates as ledger transformers

Each predicate is embedded as the pair (ledger after the call, whether the
check passes).  A `false` second component means the predicate raises an
assertion failure after the increment; the ledger effect is the same
either way. -/

/-- JavaScript truthiness of a `JsVal`. -/
def truthy : JsVal → Bool
  | .bool b => b
  | .null => false
  | .undef => false
  | .num x => !(x = 0 : Bool)
  | .str s => !(s = "" : Bool)
  | .arr _ => true
  | .obj _ => true

/-- `Assert.assert(expression, message?)` (`src/unnamed/part_002`, lines
149-152): increments the count, then delegates to chai's `assert`, which
passes exactly when the expression is truthy. -/
def Assert.assert (a : Assertions) (expression : JsVal) : Assertions × Bool :=
  (incrementAssertionsCount a, truthy expression)

/-- `Assert.fail(...)` (`src/unnamed/part_002`, lines 171-178): increments
the count, then delegates to chai's `assert.fail`, which always throws. -/
def Assert.fail (a : Assertions) : Assertions × Bool :=
  (incrementAssertionsCount a, false)

/-- `Assert.isTrue(value)` (`src/unnamed/part_002`): increments the count,
then delegates to chai's `assert.isTrue`, which passes exactly when the
value is strictly `true`. -/
def isTrue (a : Assertions) (value : JsVal) : Assertions × Bool :=
  (incrementAssertionsCount a,
    match value with
    | .bool true => true
    | _ => false)

/-- `Assert.containsSubset(haystack, needle, message?)`
(`src/unnamed/part_002`, lines 1848-1856): increments the count, then
evaluates `subsetCompare(needle, haystack)`. -/
def containsSubset (a : Assertions) (haystack needle : JsVal) : Assertions × Bool :=
  (incrementAssertionsCount a, subsetCompare needle haystack)

/-- `Assert.notContainsSubset(haystack, needle, message?)`
(`src/unnamed/part_002`, lines 1868-1880): increments the count, then
evaluates `!subsetCompare(needle, haystack)`. -/
def notContainsSubset (a : Assertions) (haystack needle : JsVal) : Assertions × Bool :=
  (incrementAssertionsCount a, !subsetCompare needle haystack)

/-- The observations `rejects` / `doesNotRejects` make after invoking the
function under test, with the chai-side and instance-of checks abstracted
to their boolean results: whether the argument was a function, whether an
exception was raised, and — when the caller narrowed the expectation —
whether the raised exception's class / message-regex / message matched
(`none` when that expectation was not given). -/
structure RejectionObs where
  fnIsFunction : Bool
  raised : Bool
  classMatch : Option Bool
  regexMatch : Option Bool
  msgMatch : Option Bool

/-- `Assert.rejects(fn, ...)` (`src/unnamed/part_002`, lines 1915-2019):
increments the count first (line 1922, before even the function-type
check), then fails when `fn` is not a function, when nothing was raised,
or when a given class / regex / message expectation does not match, and
passes otherwise. -/
def rejects (a : Assertions) (o : RejectionObs) : Assertions × Bool :=
  (incrementAssertionsCount a,
    if !o.fnIsFunction then false
    else if !o.raised then false
    else if o.classMatch = some false then false
    else if o.regexMatch = some false then false
    else if o.msgMatch = some false then false
    else true)

/-- `Assert.doesNotRejects(fn, ...)` (`src/unnamed/part_002`, lines
2055-2164): increments the count first (line 2061), then passes when `fn`
raised nothing; with no narrowing expectation any raised exception fails;
with narrowing, fails exactly when the raised exception meets the
narrowed expectation. -/
def doesNotRejects (a : Assertions) (o : RejectionObs) : Assertions × Bool :=
  (incrementAssertionsCount a,
    if !o.fnIsFunction then false
    else if !o.raised then true
    else if o.classMatch.isNone ∧ o.regexMatch.isNone ∧ o.msgMatch.isNone then false
    else if o.classMatch = some true ∧ o.regexMatch.isNone ∧ o.msgMatch.isNone then false
    else if o.regexMatch = some true then false
    else if o.msgMatch = some true then false
    else true)

/-! ### Helper lemmas -/

/-- `validate` never changes `planned` or `total`, and never changes whether
a mismatch error is stored. -/
theorem validate_state_preserves (a : Assertions) :
    (validate a).2.planned = a.planned ∧ (validate a).2.total = a.total
      ∧ ((validate a).2.mismatchError.isSome ↔ a.mismatchError.isSome) := by
  rcases hp : a.planned with _ | p
  · simp [validate, hp]
  · by_cases h : p = a.total
    · simp [validate, hp, h]
    · rcases he : a.mismatchError with _ | e <;> simp [validate, hp, h, he]

/-- `keyMatch k v akvs` decides: the actual object's fields carry key `k`
(first binding) with a value matching `v`. -/
theorem keyMatch_iff (k : String) (v : JsVal) (akvs : List (String × JsVal)) :
    keyMatch k v akvs = true ↔
      ∃ av, objLookup k akvs = some av ∧ subsetCompare v av = true := by
  induction akvs with
  | nil => simp [keyMatch, objLookup]
  | cons kv rest ih =>
      obtain ⟨k2, v2⟩ := kv
      by_cases hk : k = k2
      · simp [keyMatch, objLookup, hk]
      · simp [keyMatch, objLookup, hk, ih]

/-- `objSubset kvs akvs` decides: every expected key/value pair is carried,
matching, by the actual object's fields. -/
theorem objSubset_iff (kvs akvs : List (String × JsVal)) :
    objSubset kvs akvs = true ↔
      ∀ k v, (k, v) ∈ kvs →
        ∃ av, objLookup k akvs = some av ∧ subsetCompare v av = true := by
  induction kvs with
  | nil => simp [objSubset]
  | cons kv rest ih =>
      obtain ⟨k, v⟩ := kv
      rw [objSubset, Bool.and_eq_true, ih, keyMatch_iff]
      constructor
      · rintro ⟨h1, h2⟩ k' v' hkv
        rcases List.mem_cons.mp hkv with hkv | hkv
        · cases hkv
          exact h1
        · exact h2 k' v' hkv
      · intro h
        exact ⟨h k v (List.mem_cons_self _ _), fun k' v' hkv => h k' v' (List.mem_cons_of_mem _ hkv)⟩

/-! ### The claims -/

/-- Claim C1: `validate()` raises an error precisely when a plan was
declared and `planned` differs from `total`; with no plan, or with
`planned = total`, it returns normally and leaves the ledger untouched. -/
theorem validate_raises_iff_plan_mismatch (a : Assertions) :
    ((validate a).1 = ValidateOutcome.ok ↔ (a.planned = none ∨ a.planned = some a.total))
    ∧ (a.planned = none → validate a = (ValidateOutcome.ok, a))
    ∧ (a.planned = some a.total → validate a = (ValidateOutcome.ok, a)) := by
  refine ⟨?_, ?_, ?_⟩
  · rcases hp : a.planned with _ | p
    · simp [validate, hp]
    · by_cases h : p = a.total
      · simp [validate, hp, h]
      · rcases he : a.mismatchError with _ | e <;>
          simp [validate, hp, he, h, Ne.symm h]
  · intro hp; simp [validate, hp]
  · intro hp; simp [validate, hp]

/-- Claim C2: on a plan mismatch the raised error's message is exactly
"Planned for {planned} assertion{s}, but ran {total}", the plural "s"
appearing exactly when `planned` is not 1; the ran count never influences
pluralization (`mismatchMessage 1 5` stays singular, `mismatchMessage 2 1`
stays plural). -/
theorem validate_mismatch_message_format (a : Assertions) (p : Nat) (e : ErrorObj)
    (hp : a.planned = some p) (he : a.mismatchError = some e) (hne : p ≠ a.total) :
    (validate a).1
      = ValidateOutcome.threw { message := mismatchMessage p a.total, stack := e.stack }
    ∧ mismatchMessage p a.total
        = "Planned for " ++ toString p ++ " assertion" ++ (if p = 1 then "" else "s")
            ++ ", but ran " ++ toString a.total
    ∧ mismatchMessage 1 5 = "Planned for 1 assertion, but ran 5"
    ∧ mismatchMessage 2 1 = "Planned for 2 assertions, but ran 1" := by
  refine ⟨?_, rfl, by decide, by decide⟩
  simp [validate, hp, he, hne]

/-- Witness for C2 at a concrete ledger: `plan(1)` then zero assertions. -/
theorem validate_mismatch_message_format_witness :
    (validate (plan Assert.new 1 9)).1
      = ValidateOutcome.threw { message := mismatchMessage 1 0, stack := 9 } :=
  (validate_mismatch_message_format (plan Assert.new 1 9) 1 { message := "", stack := 9 }
    rfl rfl (by decide)).1

/-- Claim C3 (counterexample): `isValidApiResponse` does not increment the
ledger — calling it on a fresh ledger with the validator installed leaves
`total` at 0 instead of the claimed `total + 1`
(`src/unnamed/part_002`, lines 2169-2175: no `incrementAssertionsCount`). -/
theorem isValidApiResponse_total_unchanged_counterexample :
    (isValidApiResponse true Assert.new).1.total ≠ Assert.new.total + 1 := by decide

/-- Claim C3 (amended): `assert`, `fail`, `isTrue`, `containsSubset`,
`notContainsSubset`, `rejects` and `doesNotRejects` each increment `total`
by exactly 1 on invocation regardless of whether the check subsequently
passes or fails, but `isValidApiResponse` never touches the ledger. -/
theorem assertion_predicates_increment_except_isValidApiResponse :
    (∀ a e, (Assert.assert a e).1.total = a.total + 1)
    ∧ (∀ a, (Assert.fail a).1.total = a.total + 1)
    ∧ (∀ a v, (isTrue a v).1.total = a.total + 1)
    ∧ (∀ a h n, (containsSubset a h n).1.total = a.total + 1)
    ∧ (∀ a h n, (notContainsSubset a h n).1.total = a.total + 1)
    ∧ (∀ a o, (rejects a o).1.total = a.total + 1)
    ∧ (∀ a o, (doesNotRejects a o).1.total = a.total + 1)
    ∧ (∀ flag a, (isValidApiResponse flag a).1.total = a.total) :=
  ⟨fun _ _ => rfl, fun _ => rfl, fun _ _ => rfl, fun _ _ _ => rfl, fun _ _ _ => rfl,
   fun _ _ => rfl, fun _ _ => rfl, fun flag a => by cases flag <;> rfl⟩

/-- Claim C4: for every `(haystack, needle)` pair, `notContainsSubset`
asserts exactly the negation of `containsSubset`: both evaluate the same
single `subsetCompare needle haystack`, one passes precisely when the
other fails, and both touch the ledger identically. -/
theorem notContainsSubset_negates_containsSubset (a : Assertions) (haystack needle : JsVal) :
    (notContainsSubset a haystack needle).2 = !(containsSubset a haystack needle).2
    ∧ ((containsSubset a haystack needle).2 = true
        ↔ (notContainsSubset a haystack needle).2 = false)
    ∧ (notContainsSubset a haystack needle).1 = (containsSubset a haystack needle).1 := by
  refine ⟨rfl, ?_, rfl⟩
  simp [containsSubset, notContainsSubset]

/-- Claim C5: with a plain-object expected value, `subsetCompare` succeeds
exactly when the actual value is an object carrying every own key of the
expected object with a recursively matching value (extra actual keys
ignored); in particular `{a:1}` matches inside `{a:1, b:2}` while
`{a:1, b:2}` does not match inside `{a:1}`. -/
theorem subsetCompare_object_subset_iff :
    (∀ kvs a, subsetCompare (JsVal.obj kvs) a = true ↔
        ∃ akvs, a = JsVal.obj akvs ∧
          ∀ k v, (k, v) ∈ kvs →
            ∃ av, objLookup k akvs = some av ∧ subsetCompare v av = true)
    ∧ subsetCompare (JsVal.obj [("a", JsVal.num 1)])
        (JsVal.obj [("a", JsVal.num 1), ("b", JsVal.num 2)]) = true
    ∧ subsetCompare (JsVal.obj [("a", JsVal.num 1), ("b", JsVal.num 2)])
        (JsVal.obj [("a", JsVal.num 1)]) = false := by
  refine ⟨?_, ?_, ?_⟩
  · intro kvs a
    cases a with
    | obj akvs =>
        rw [show subsetCompare (JsVal.obj kvs) (JsVal.obj akvs) = objSubset kvs akvs from by
          simp [subsetCompare]]
        rw [objSubset_iff]
        constructor
        · intro h
          exact ⟨akvs, rfl, h⟩
        · rintro ⟨akvs', heq, h⟩
          cases heq
          exact h
    | str s => simp [subsetCompare]
    | num n => simp [subsetCompare]
    | bool b => simp [subsetCompare]
    | null => simp [subsetCompare]
    | undef => simp [subsetCompare]
    | arr es => simp [subsetCompare]
  · simp [subsetCompare, objSubset, keyMatch]
  · simp [subsetCompare, objSubset, keyMatch]

/-- Claim C6: calling `plan` again is last-write-wins — the composite state
equals the state after the final `plan` alone, which stores the final
count and a fresh error captured at the final call site, so every
subsequent `validate()` outcome depends only on the final call. -/
theorem plan_last_write_wins (a : Assertions) (n1 s1 n2 s2 : Nat) :
    plan (plan a n1 s1) n2 s2 = plan a n2 s2
    ∧ (plan a n2 s2).planned = some n2
    ∧ (plan a n2 s2).mismatchError = some { message := "", stack := s2 }
    ∧ (plan a n2 s2).total = a.total
    ∧ validate (plan (plan a n1 s1) n2 s2) = validate (plan a n2 s2) :=
  ⟨rfl, rfl, rfl, rfl, rfl⟩

/-- Claim C7: on a mismatch, `validate()` throws exactly the stored error
object with only its message filled in — stack kept from `plan()` time —
leaves `planned` and `total` unchanged, stores that same (identical)
object back, and a repeated `validate()` behaves identically. -/
theorem validate_mismatch_frame (a : Assertions) (p : Nat) (e : ErrorObj)
    (hp : a.planned = some p) (he : a.mismatchError = some e) (hne : p ≠ a.total) :
    validate a
      = (ValidateOutcome.threw { message := mismatchMessage p a.total, stack := e.stack },
         { a with mismatchError := some { message := mismatchMessage p a.total, stack := e.stack } })
    ∧ (validate a).2.planned = a.planned
    ∧ (validate a).2.total = a.total
    ∧ validate (validate a).2 = validate a := by
  have h1 : validate a
      = (ValidateOutcome.threw { message := mismatchMessage p a.total, stack := e.stack },
         { a with mismatchError := some { message := mismatchMessage p a.total, stack := e.stack } }) := by
    simp [validate, hp, he, hne]
  refine ⟨h1, by rw [h1], by rw [h1], ?_⟩
  rw [h1]
  simp [validate, hp, hne]

/-- Witness for C7 at a concrete ledger: `plan(2)` then zero assertions. -/
theorem validate_mismatch_frame_witness :
    validate (plan Assert.new 2 5)
      = (ValidateOutcome.threw { message := mismatchMessage 2 0, stack := 5 },
         { plan Assert.new 2 5 with
             mismatchError := some { message := mismatchMessage 2 0, stack := 5 } }) :=
  (validate_mismatch_frame (plan Assert.new 2 5) 2 { message := "", stack := 5 }
    rfl rfl (by decide)).1

/-- Claim C8: in every reachable ledger state a mismatch error is stored
exactly when a plan is stored; the fresh ledger has `total = 0`, no plan
and no error; `plan` sets both together; `incrementAssertionsCount` and
`validate` change neither field's presence. -/
theorem mismatchError_iff_planned_invariant :
    (∀ a, Reachable a → (a.mismatchError.isSome ↔ a.planned.isSome))
    ∧ Assert.new.total = 0 ∧ Assert.new.planned = none ∧ Assert.new.mismatchError = none
    ∧ (∀ a n site, ((plan a n site).planned).isSome ∧ ((plan a n site).mismatchError).isSome)
    ∧ (∀ a, (incrementAssertionsCount a).planned = a.planned
        ∧ (incrementAssertionsCount a).mismatchError = a.mismatchError)
    ∧ (∀ a, (validate a).2.planned = a.planned
        ∧ ((validate a).2.mismatchError.isSome ↔ a.mismatchError.isSome)) := by
  refine ⟨?_, rfl, rfl, rfl, fun _ _ _ => ⟨rfl, rfl⟩, fun _ => ⟨rfl, rfl⟩, ?_⟩
  · intro a h
    induction h with
    | init => simp [Assert.new]
    | increment _ ih => simpa [incrementAssertionsCount] using ih
    | plan n site _ => simp [plan]
    | validate _ ih =>
        have hv := validate_state_preserves (by assumption)
        rw [hv.1, hv.2.2]
        exact ih
  · intro a
    exact ⟨(validate_state_preserves a).1, (validate_state_preserves a).2.2⟩

/-- Claim C9: with the validator flag unset, `isValidApiResponse` fails
immediately with the not-configured error; with the flag set it raises no
error of its own (the result is delegated); `registerApiSpecs` sets the
flag, and no sequence of operations ever resets it to `false`. -/
theorem api_schema_gate_behaviour :
    (∀ a, isValidApiResponse false a = (a, some notConfiguredMessage))
    ∧ (∀ a, isValidApiResponse true a = (a, none))
    ∧ (∀ flag, registerApiSpecs flag = true)
    ∧ (∀ ops, runGateOps true ops = true) := by
  refine ⟨fun _ => rfl, fun _ => rfl, fun _ => rfl, ?_⟩
  intro ops
  induction ops with
  | nil => rfl
  | cons op rest ih => cases op <;> simpa [runGateOps, applyGateOp, List.foldl] using ih

/-- Claim C10: the plugin's test-completion hook runs `validate()` exactly
when the finished test has no recorded error; for a test that already
failed, the ledger is untouched and no plan-mismatch error is raised, so
the pre-existing failure stands alone, while a passing test with a
mismatched plan gets the mismatch error. -/
theorem completion_hook_validates_iff_no_error :
    (∀ a, completionHook true a = (ValidateOutcome.ok, a))
    ∧ (∀ a, completionHook false a = validate a)
    ∧ (∀ a p e, a.planned = some p → a.mismatchError = some e → p ≠ a.total →
        (completionHook true a).1 = ValidateOutcome.ok
        ∧ (completionHook true a).2 = a
        ∧ (completionHook false a).1
            = ValidateOutcome.threw { message := mismatchMessage p a.total, stack := e.stack }) := by
  refine ⟨fun _ => rfl, fun _ => rfl, ?_⟩
  intro a p e hp he hne
  refine ⟨rfl, rfl, ?_⟩
  show (validate a).1 = _
  simp [validate, hp, he, hne]

end JapaAssert
